import Mathlib

/-!
Shallow embedding of the single-page storefront component (src/src/app/app.ts).

Modelling conventions:
* JS strings are lists of characters (`Str`); `toLowerCase` is `toLowerStr`,
  `String.prototype.includes` is `strIncludes`.
* JS numbers carrying money or ratings are exact rationals (`ℚ`); product ids and
  cart quantities are integers (`ℤ`), matching the spec's data model
  (id integer, quantity positive integer).
* The Angular signals of the component are the fields of an `AppState` record;
  each method of the component becomes a state-transforming function.
* External effects are explicit parameters or outputs: the HTTP fetch result is an
  `Option (List _)` argument (`none` = network failure / non-2xx / malformed payload,
  `some l` = payload `l`), `Math.random()` is a rational argument, and the
  `alert` of `checkout` is returned as an optional message.
-/

/-- JS strings, modelled as lists of characters. -/
abbrev Str := List Char

/-- JS `toLowerCase`, applied character by character. -/
def toLowerStr (s : Str) : Str := s.map Char.toLower

/-- JS `hay.includes(needle)`: `needle` occurs contiguously inside `hay`. -/
def strIncludes (hay needle : Str) : Bool :=
  match hay with
  | [] => needle.isEmpty
  | c :: t => needle.isPrefixOf (c :: t) || strIncludes t needle

/-- The substring relation, as a proposition: `needle` occurs contiguously in `hay`. -/
def SubstrOf (needle hay : Str) : Prop :=
  ∃ pre post, pre ++ needle ++ post = hay

/-- `interface Rating` of app.ts. -/
structure Rating where
  rate : ℚ
  count : ℕ
  deriving DecidableEq, Repr

/-- `interface Product` of app.ts. -/
structure Product where
  id : ℤ
  title : Str
  price : ℚ
  description : Str
  category : Str
  image : Str
  rating : Rating
  deriving DecidableEq, Repr

/-- `interface CartItem extends Product` of app.ts. -/
structure CartItem extends Product where
  quantity : ℤ
  deriving DecidableEq, Repr

/-- The signals of the `App` component: products, categories, cart, currentFilter,
searchQuery, featuredProduct, isLoading, showApiWarning. -/
structure AppState where
  products : List Product
  categories : List Str
  cart : List CartItem
  currentFilter : Str
  searchQuery : Str
  featuredProduct : Option Product
  isLoading : Bool
  showApiWarning : Bool
  deriving DecidableEq, Repr

/-- The computed signal `filteredProducts` of app.ts: keep a product when
(filter is "all" or the category equals the filter) and (the lower-cased query is
empty or occurs in the lower-cased title, description or category). -/
def filteredProducts (s : AppState) : List Product :=
  let search := toLowerStr s.searchQuery
  s.products.filter (fun product =>
    let matchesCategory := s.currentFilter == "all".data || product.category == s.currentFilter
    let matchesSearch := search.isEmpty ||
      strIncludes (toLowerStr product.title) search ||
      strIncludes (toLowerStr product.description) search ||
      strIncludes (toLowerStr product.category) search
    matchesCategory && matchesSearch)

/-- The computed signal `cartCount`: `reduce ((total, item) => total + item.quantity) 0`. -/
def cartCount (s : AppState) : ℤ :=
  s.cart.foldl (fun total item => total + item.quantity) 0

/-- The computed signal `cartTotal`: `reduce ((total, item) => total + item.price * item.quantity) 0`. -/
def cartTotal (s : AppState) : ℚ :=
  s.cart.foldl (fun total item => total + item.price * (item.quantity : ℚ)) 0

/-- The hardcoded fallback product list `sampleProducts` of app.ts. -/
def sampleProducts : List Product :=
  [{ id := 1,
     title := "Premium Wireless Headphones".data,
     price := 12999 / 100,
     description := ("High-quality wireless headphones with noise cancellation and premium sound quality. Perfect for music lovers and professionals.").data,
     category := "electronics".data,
     image := "https://images.unsplash.com/photo-1505740420928-5e560c06d30e?w=300&h=300&fit=crop".data,
     rating := { rate := 9 / 2, count := 120 } }]

/-- The hardcoded fallback category list `sampleCategories` of app.ts
(`Char.ofNat 39` is the apostrophe). -/
def sampleCategories : List Str :=
  ["electronics".data,
   "jewelery".data,
   "men".data ++ [Char.ofNat 39] ++ "s clothing".data,
   "women".data ++ [Char.ofNat 39] ++ "s clothing".data]

/-- `loadProducts` of app.ts, with the fetch outcome made explicit:
`none` models a failed fetch (network failure, non-2xx, malformed payload),
`some resp` a JSON array `resp`.  The method sets `isLoading := true` and
`showApiWarning := false`, installs the response when it is non-empty, otherwise
falls back to `sampleProducts` with the warning raised, and finally clears
`isLoading`. -/
def loadProducts (s : AppState) (response : Option (List Product)) : AppState :=
  let s1 := { s with isLoading := true, showApiWarning := false }
  let s2 :=
    match response with
    | some resp =>
        if resp.length > 0 then
          { s1 with products := resp }
        else
          { s1 with products := sampleProducts, showApiWarning := true }
    | none => { s1 with products := sampleProducts, showApiWarning := true }
  { s2 with isLoading := false }

/-- `loadCategories` of app.ts, with the fetch outcome made explicit as in
`loadProducts`.  A failed or empty fetch silently falls back to
`sampleCategories`; the warning flag is not touched. -/
def loadCategories (s : AppState) (response : Option (List Str)) : AppState :=
  match response with
  | some resp =>
      if resp.length > 0 then
        { s with categories := resp }
      else
        { s with categories := sampleCategories }
  | none => { s with categories := sampleCategories }

/-- `loadFeaturedProduct` of app.ts with `Math.random()` passed explicitly as
`random` (a value in `[0,1)`): when the catalog is non-empty it picks index
`Math.floor(random * products.length)`. -/
def loadFeaturedProduct (s : AppState) (random : ℚ) : AppState :=
  if s.products.length > 0 then
    let randomIndex := (Rat.floor (random * (s.products.length : ℚ))).toNat
    match s.products[randomIndex]? with
    | some p => { s with featuredProduct := some p }
    | none => { s with featuredProduct := none }
  else s

/-- `addToCart` of app.ts: look the product up in the catalog (no-op when absent);
bump the quantity of an existing entry, or append a fresh entry of quantity 1. -/
def addToCart (s : AppState) (productId : ℤ) : AppState :=
  match s.products.find? (fun p => p.id == productId) with
  | none => s
  | some product =>
      let currentCart := s.cart
      match currentCart.find? (fun item => item.id == productId) with
      | some _ =>
          { s with cart := currentCart.map (fun item =>
              if item.id == productId then { item with quantity := item.quantity + 1 }
              else item) }
      | none =>
          { s with cart := currentCart ++ [{ product with quantity := 1 }] }

/-- `removeFromCart` of app.ts: keep the entries whose id differs. -/
def removeFromCart (s : AppState) (productId : ℤ) : AppState :=
  { s with cart := s.cart.filter (fun item => item.id != productId) }

/-- `updateCartItemQuantity` of app.ts: a non-positive quantity removes the entry,
otherwise the entry with that id gets exactly the requested quantity. -/
def updateCartItemQuantity (s : AppState) (productId quantity : ℤ) : AppState :=
  if quantity ≤ 0 then
    removeFromCart s productId
  else
    { s with cart := s.cart.map (fun item =>
        if item.id == productId then { item with quantity := quantity }
        else item) }

/-- `clearCart` of app.ts. -/
def clearCart (s : AppState) : AppState :=
  { s with cart := [] }

/-- The three star markers emitted by `generateStars` (each one an `<i>` tag in
the original markup). -/
inductive StarMark
  | full
  | half
  | empty
  deriving DecidableEq, Repr

/-- JS truncation toward zero, the rounding used by the `%` operator. -/
def jsTrunc (q : ℚ) : ℤ :=
  if 0 ≤ q then Rat.floor q else Rat.ceil q

/-- JS `rating % 1`: the remainder has the sign of the dividend. -/
def jsMod1 (q : ℚ) : ℚ :=
  q - (jsTrunc q : ℚ)

/-- `generateStars` of app.ts: `Math.floor(rating)` full markers, a half marker
when `rating % 1 >= 0.5`, then `5 - full - half` empty markers (a JS `for` loop
with a negative bound runs zero times, hence the `Int.toNat`). -/
def generateStars (rating : ℚ) : List StarMark :=
  let fullStars : ℤ := Rat.floor rating
  let hasHalfStar : Bool := decide (1 / 2 ≤ jsMod1 rating)
  let emptyStars : ℤ := 5 - fullStars - (if hasHalfStar then 1 else 0)
  List.replicate fullStars.toNat StarMark.full ++
    (if hasHalfStar then [StarMark.half] else []) ++
    List.replicate emptyStars.toNat StarMark.empty

/-- Decimal rendering of an integer, as a character list. -/
def intStr (n : ℤ) : Str := (toString n).data

/-- Decimal rendering of a natural number, as a character list. -/
def natStr (n : ℕ) : Str := (toString n).data

/-- JS `Number.prototype.toFixed(2)` on an exact rational: round half away from
zero at two decimal places and print with exactly two fractional digits. -/
def toFixed2 (q : ℚ) : Str :=
  let n : ℤ :=
    if 0 ≤ q then Rat.floor (q * 100 + 1 / 2) else -Rat.floor (-q * 100 + 1 / 2)
  let sign : Str := if n < 0 then "-".data else []
  sign ++ natStr (n.natAbs / 100) ++ ".".data ++
    (if n.natAbs % 100 < 10 then "0".data else []) ++ natStr (n.natAbs % 100)

/-- The text of the `alert` raised by `checkout`. -/
def checkoutMessage (total : ℚ) (itemCount : ℤ) : Str :=
  "Checkout successful!\nTotal: ".data ++ toFixed2 total ++
    "\nItems: ".data ++ intStr itemCount

/-- `checkout` of app.ts: no-op on an empty cart; otherwise the `alert` text
(returned here as the second component) is built from `cartTotal` and
`cartCount`, and the cart is cleared. -/
def checkout (s : AppState) : AppState × Option Str :=
  if s.cart.length = 0 then (s, none)
  else
    let total := cartTotal s
    let itemCount := cartCount s
    (clearCart s, some (checkoutMessage total itemCount))

/-- The cart invariant stated by the spec: every quantity is at least 1 and no
two entries share a product id. -/
def CartInv (cart : List CartItem) : Prop :=
  (∀ it ∈ cart, 1 ≤ it.quantity) ∧ (cart.map (fun it => it.id)).Nodup

/-! Concrete fixtures used to evaluate the definitions on sample inputs. -/

/-- A sample product (id 1, price 10). -/
def pA : Product :=
  { id := 1, title := "alpha".data, price := 10, description := "first".data,
    category := "electronics".data, image := "a.png".data,
    rating := { rate := 4, count := 1 } }

/-- A sample product (id 2, price 5). -/
def pB : Product :=
  { id := 2, title := "beta".data, price := 5, description := "second".data,
    category := "jewelery".data, image := "b.png".data,
    rating := { rate := 3, count := 2 } }

/-- A state whose catalog holds `pA` and `pB` and whose cart is empty. -/
def testCatalogState : AppState :=
  { products := [pA, pB], categories := [], cart := [],
    currentFilter := "all".data, searchQuery := [], featuredProduct := none,
    isLoading := false, showApiWarning := false }

/-- A cart entry for `pA` with quantity 2. -/
def itemA2 : CartItem := { pA with quantity := 2 }

/-- A cart entry for `pB` with quantity 1. -/
def itemB1 : CartItem := { pB with quantity := 1 }

/-- The spec's running example cart: price 10 with quantity 2 and price 5 with
quantity 1. -/
def exampleCartState : AppState :=
  { testCatalogState with cart := [itemA2, itemB1] }

/-- A state whose cart holds a single entry for `pA` with quantity 2. -/
def singleItemState : AppState :=
  { testCatalogState with cart := [itemA2] }

/-! Helper lemmas. -/

/-- `List.isPrefixOf` decides the existence of a completing suffix. -/
theorem isPrefixOf_iff_exists (l₁ l₂ : Str) :
    l₁.isPrefixOf l₂ = true ↔ ∃ t, l₁ ++ t = l₂ := by
  rw [ List.isPrefixOf_iff_prefix]
  exact Iff.rfl

/-- `strIncludes` decides the substring relation. -/
theorem strIncludes_iff (hay needle : Str) :
    strIncludes hay needle = true ↔ SubstrOf needle hay := by
  induction hay with
  | nil =>
    simp [strIncludes, SubstrOf, List.isEmpty_iff, List.append_eq_nil]
  | cons c t ih =>
    simp only [strIncludes, Bool.or_eq_true, ih, isPrefixOf_iff_exists, SubstrOf]
    constructor
    · rintro (⟨post, hpost⟩ | ⟨pre, post, h⟩)
      · exact ⟨[], post, by simpa using hpost⟩
      · exact ⟨c :: pre, post, by simp [h]⟩
    · rintro ⟨pre, post, h⟩
      cases pre with
      | nil => exact Or.inl ⟨post, by simpa using h⟩
      | cons c2 pre2 =>
        simp only [List.cons_append, List.cons.injEq] at h
        exact Or.inr ⟨pre2, post, h.2⟩

/-- Lower-casing does not change emptiness. -/
theorem toLowerStr_eq_nil (s : Str) : toLowerStr s = [] ↔ s = [] := by
  simp [toLowerStr]

/-- Claim C1: for every catalog, category filter and search query, the View Filter
includes a product iff (the filter is "all" or the product's category equals the
filter) and (the query is empty or the query, compared case-insensitively, is a
substring of the product's title, description, or category); the output is a
subsequence of the input catalog, preserving its order. -/
theorem filteredProducts_spec (s : AppState) (p : Product) :
    List.Sublist (filteredProducts s) s.products ∧
    (p ∈ filteredProducts s ↔
      p ∈ s.products ∧
      ((s.currentFilter = "all".data ∨ p.category = s.currentFilter) ∧
       (s.searchQuery = [] ∨
        SubstrOf (toLowerStr s.searchQuery) (toLowerStr p.title) ∨
        SubstrOf (toLowerStr s.searchQuery) (toLowerStr p.description) ∨
        SubstrOf (toLowerStr s.searchQuery) (toLowerStr p.category)))) := by
  refine ⟨List.filter_sublist _, ?_⟩
  rw [filteredProducts]
  simp only [List.mem_filter, Bool.and_eq_true, Bool.or_eq_true, beq_iff_eq,
    List.isEmpty_iff, toLowerStr_eq_nil, strIncludes_iff]
  tauto

/-- Claim C5: the aggregate count is the sum of the quantities and the aggregate
total is the sum of price times quantity over the cart; on the spec's example cart
(price 10 with quantity 2, price 5 with quantity 1) they are 3 and 25. -/
theorem cart_aggregates_spec (s : AppState) :
    cartCount s = (s.cart.map (fun item => item.quantity)).sum ∧
    cartTotal s = (s.cart.map (fun item => item.price * (item.quantity : ℚ))).sum ∧
    cartCount exampleCartState = 3 ∧
    cartTotal exampleCartState = 25 := by
  refine ⟨?_, ?_, ?_, ?_⟩
  · rw [cartCount, List.sum_eq_foldl, List.foldl_map]
  · rw [cartTotal, List.sum_eq_foldl, List.foldl_map]
  · decide
  · norm_num [cartTotal, exampleCartState, testCatalogState, itemA2, itemB1, pA, pB]

/-- Claim C7: a failed products fetch (network failure, non-2xx, malformed
payload, modelled by `none`) or an empty product list leaves the catalog equal to
the fixed fallback dataset with the advisory flag raised; a failed or empty
categories fetch substitutes the fallback categories without touching the flag. -/
theorem load_fallback_spec (s : AppState) :
    (loadProducts s none).products = sampleProducts ∧
    (loadProducts s none).showApiWarning = true ∧
    (loadProducts s (some [])).products = sampleProducts ∧
    (loadProducts s (some [])).showApiWarning = true ∧
    (loadCategories s none).categories = sampleCategories ∧
    (loadCategories s none).showApiWarning = s.showApiWarning ∧
    (loadCategories s (some [])).categories = sampleCategories ∧
    (loadCategories s (some [])).showApiWarning = s.showApiWarning := by
  simp [loadProducts, loadCategories]

/-- Mapping an id-guarded quantity update over a cart with no matching id is the
identity. -/
theorem map_guard_id_of_absent (cart : List CartItem) (pid : ℤ) (g : CartItem → CartItem)
    (h : ∀ it ∈ cart, it.id ≠ pid) :
    cart.map (fun item => if item.id == pid then g item else item) = cart := by
  have hcong : ∀ it ∈ cart, (if it.id == pid then g it else it) = id it := by
    intro it hit
    simp [h it hit]
  rw [List.map_congr_left hcong, List.map_id]

/-- Mapping an id-guarded quantity update over a decomposed cart whose sole
matching entry is `it` rewrites exactly that entry. -/
theorem map_guard_decompose (pre post : List CartItem) (it : CartItem) (pid : ℤ)
    (g : CartItem → CartItem) (hit : it.id = pid)
    (hpre : ∀ x ∈ pre, x.id ≠ pid) (hpost : ∀ x ∈ post, x.id ≠ pid) :
    (pre ++ it :: post).map (fun item => if item.id == pid then g item else item) =
      pre ++ g it :: post := by
  rw [List.map_append, List.map_cons, map_guard_id_of_absent pre pid g hpre,
    map_guard_id_of_absent post pid g hpost, if_pos (by simpa using hit)]

/-- The first matching entry of a decomposed cart whose sole matching entry is
`it` is `it` itself. -/
theorem find?_guard_decompose (pre post : List CartItem) (it : CartItem) (pid : ℤ)
    (hit : it.id = pid) (hpre : ∀ x ∈ pre, x.id ≠ pid) :
    (pre ++ it :: post).find? (fun item => item.id == pid) = some it := by
  rw [List.find?_append]
  have h1 : pre.find? (fun item => item.id == pid) = none := by
    rw [List.find?_eq_none]
    intro x hx
    simp [hpre x hx]
  rw [h1, List.find?_cons_of_pos _ (by simpa using hit)]
  rfl

/-- Claim C2: `addToCart` is a no-op when the id is not in the catalog; it bumps
the quantity of the unique existing entry in place, preserving order, when one
exists; otherwise it appends a quantity-1 entry at the end; and two calls from a
cart without the id produce a single entry of quantity 2, never two entries. -/
theorem addToCart_spec (s : AppState) (productId : ℤ) :
    (s.products.find? (fun q => q.id == productId) = none → addToCart s productId = s) ∧
    (∀ p, s.products.find? (fun q => q.id == productId) = some p →
      ((∀ pre it post, s.cart = pre ++ it :: post → it.id = productId →
        (∀ x ∈ pre, x.id ≠ productId) → (∀ x ∈ post, x.id ≠ productId) →
        addToCart s productId =
          { s with cart := pre ++ { it with quantity := it.quantity + 1 } :: post }) ∧
      ((∀ it ∈ s.cart, it.id ≠ productId) →
        addToCart s productId = { s with cart := s.cart ++ [{ p with quantity := 1 }] } ∧
        addToCart (addToCart s productId) productId =
          { s with cart := s.cart ++ [{ p with quantity := 2 }] }))) := by
  constructor
  · intro h
    rw [addToCart, h]
  · intro p hp
    have habsent : ∀ it : List CartItem, (∀ x ∈ it, x.id ≠ productId) →
        it.find? (fun item => item.id == productId) = none := by
      intro l hl
      rw [List.find?_eq_none]
      intro x hx
      simp [hl x hx]
    constructor
    · intro pre it post hcart hit hpre hpost
      rw [addToCart, hp]
      simp only [hcart]
      rw [find?_guard_decompose pre post it productId hit hpre,
        map_guard_decompose pre post it productId _ hit hpre hpost]
    · intro habs
      have hfirst : addToCart s productId =
          { s with cart := s.cart ++ [{ p with quantity := 1 }] } := by
        rw [addToCart, hp]
        dsimp only
        rw [habsent s.cart habs]
      refine ⟨hfirst, ?_⟩
      have hpid : p.id = productId := by
        simpa using List.find?_some hp
      have hfind2 : (s.cart ++ [({ p with quantity := 1 } : CartItem)]).find?
          (fun item => item.id == productId) = some { p with quantity := 1 } := by
        rw [List.find?_append, habsent s.cart habs]
        simp [hpid]
      rw [hfirst, addToCart]
      dsimp only
      rw [hp]
      dsimp only
      rw [hfind2]
      dsimp only
      rw [List.map_append, map_guard_id_of_absent s.cart productId _ habs]
      simp [hpid]

/-- Claim C3: `updateQuantity` with a non-positive quantity (for example 0 or -5)
is exactly `removeFromCart`, leaving no entry with that id; with a positive
quantity it sets the unique matching entry's quantity to exactly the given value,
with no clamping. -/
theorem updateCartItemQuantity_spec (s : AppState) (productId quantity : ℤ) :
    (quantity ≤ 0 →
      updateCartItemQuantity s productId quantity = removeFromCart s productId ∧
      ∀ it ∈ (updateCartItemQuantity s productId quantity).cart, it.id ≠ productId) ∧
    (0 < quantity → ∀ pre it post, s.cart = pre ++ it :: post → it.id = productId →
      (∀ x ∈ pre, x.id ≠ productId) → (∀ x ∈ post, x.id ≠ productId) →
      updateCartItemQuantity s productId quantity =
        { s with cart := pre ++ { it with quantity := quantity } :: post }) := by
  constructor
  · intro hq
    have heq : updateCartItemQuantity s productId quantity = removeFromCart s productId := by
      rw [updateCartItemQuantity, if_pos hq]
    refine ⟨heq, ?_⟩
    intro it hit
    rw [heq] at hit
    simp only [removeFromCart, List.mem_filter] at hit
    simpa using hit.2
  · intro hq pre it post hcart hit hpre hpost
    rw [updateCartItemQuantity, if_neg (not_le.mpr hq)]
    simp only [hcart]
    rw [map_guard_decompose pre post it productId _ hit hpre hpost]

/-- Claim C10: `updateQuantity` with a positive quantity and no matching cart
entry leaves the state unchanged: it never inserts a new entry. -/
theorem updateCartItemQuantity_absent_noop (s : AppState) (productId quantity : ℤ)
    (hq : 0 < quantity) (habs : ∀ it ∈ s.cart, it.id ≠ productId) :
    updateCartItemQuantity s productId quantity = s := by
  rw [updateCartItemQuantity, if_neg (not_le.mpr hq),
    map_guard_id_of_absent s.cart productId _ habs]

/-- An id-guarded quantity update keeps the list of ids unchanged. -/
theorem ids_map_guard (cart : List CartItem) (pid : ℤ) (q : CartItem → ℤ) :
    ((cart.map (fun item =>
        if item.id == pid then { item with quantity := q item } else item)).map
      (fun it => it.id)) = cart.map (fun it => it.id) := by
  rw [List.map_map]
  apply List.map_congr_left
  intro a _
  by_cases h : (a.id == pid) = true
  · simp [Function.comp, h]
  · simp [Function.comp, h]

/-- Claim C4: addToCart, removeFromCart, updateQuantity and clearCart each
preserve the invariant that every cart quantity is at least 1 and that the cart
holds at most one entry per product id. -/
theorem cart_ops_preserve_invariant (s : AppState) (productId quantity : ℤ)
    (h : CartInv s.cart) :
    CartInv (addToCart s productId).cart ∧
    CartInv (removeFromCart s productId).cart ∧
    CartInv (updateCartItemQuantity s productId quantity).cart ∧
    CartInv (clearCart s).cart := by
  obtain ⟨hq, hnd⟩ := h
  have hrem : CartInv (removeFromCart s productId).cart := by
    constructor
    · intro it hit
      simp only [removeFromCart, List.mem_filter] at hit
      exact hq it hit.1
    · exact List.Nodup.sublist ((List.filter_sublist s.cart).map _) hnd
  have hmapinv : ∀ q2 : CartItem → ℤ, (∀ it ∈ s.cart, 1 ≤ q2 it) →
      CartInv (s.cart.map (fun item =>
        if item.id == productId then { item with quantity := q2 item } else item)) := by
    intro q2 hq2
    constructor
    · intro it hit
      simp only [List.mem_map] at hit
      obtain ⟨a, ha, rfl⟩ := hit
      by_cases hc : (a.id == productId) = true
      · simpa [hc] using hq2 a ha
      · simpa [hc] using hq a ha
    · rw [ids_map_guard]
      exact hnd
  refine ⟨?_, hrem, ?_, ?_⟩
  · rcases hfp : s.products.find? (fun p2 => p2.id == productId) with _ | p
    · rw [addToCart, hfp]
      exact ⟨hq, hnd⟩
    · rw [addToCart, hfp]
      dsimp only
      rcases hfc : s.cart.find? (fun item => item.id == productId) with _ | it0
      · rw [hfc]
        dsimp only
        have hpid : p.id = productId := by simpa using List.find?_some hfp
        have habs : ∀ x ∈ s.cart, ¬(x.id == productId) = true := List.find?_eq_none.mp hfc
        constructor
        · intro it hit
          rcases List.mem_append.mp hit with h1 | h1
          · exact hq it h1
          · simp only [List.mem_singleton] at h1
            subst h1
            norm_num
        · rw [List.map_append, List.nodup_append]
          refine ⟨hnd, by simp, ?_⟩
          intro a ha hb
          simp only [List.mem_map] at ha
          obtain ⟨x, hx, rfl⟩ := ha
          simp only [List.map_cons, List.map_nil, List.mem_singleton] at hb
          have : x.id = productId := by
            rw [hb]
            exact hpid
          exact habs x hx (by simpa using this)
      · rw [hfc]
        dsimp only
        exact hmapinv (fun item => item.quantity + 1)
          (fun it hit => by have := hq it hit; dsimp only; omega)
  · by_cases hql : quantity ≤ 0
    · rw [updateCartItemQuantity, if_pos hql]
      exact hrem
    · rw [updateCartItemQuantity, if_neg hql]
      exact hmapinv (fun _ => quantity) (fun _ _ => by dsimp only; omega)
  · exact ⟨by simp [clearCart], by simp [clearCart]⟩

/-- Claim C6: checkout on an empty cart raises no confirmation and leaves the
state unchanged; on a non-empty cart it raises a confirmation containing the
two-decimal total and the item count, and leaves the cart empty. -/
theorem checkout_spec (s : AppState) :
    (s.cart = [] → checkout s = (s, none)) ∧
    (s.cart ≠ [] →
      (checkout s).2 = some (checkoutMessage (cartTotal s) (cartCount s)) ∧
      SubstrOf (toFixed2 (cartTotal s)) (checkoutMessage (cartTotal s) (cartCount s)) ∧
      SubstrOf (intStr (cartCount s)) (checkoutMessage (cartTotal s) (cartCount s)) ∧
      (checkout s).1 = { s with cart := [] }) := by
  constructor
  · intro h
    rw [checkout, if_pos (by simp [h])]
  · intro h
    have hlen : ¬ s.cart.length = 0 := by
      simpa [List.length_eq_zero] using h
    refine ⟨?_, ?_, ?_, ?_⟩
    · rw [checkout, if_neg hlen]
    · exact ⟨"Checkout successful!\nTotal: ".data,
        "\nItems: ".data ++ intStr (cartCount s), by simp [checkoutMessage]⟩
    · exact ⟨"Checkout successful!\nTotal: ".data ++ toFixed2 (cartTotal s) ++
        "\nItems: ".data, [], by simp [checkoutMessage]⟩
    · rw [checkout, if_neg hlen]
      rfl

/-- Claim C9: the featured pick is a no-op on an empty catalog (so an absent
featured product stays absent), and on a non-empty catalog it selects a member
of the catalog, for any random draw in [0,1). -/
theorem loadFeaturedProduct_spec (s : AppState) (random : ℚ)
    (h0 : 0 ≤ random) (h1 : random < 1) :
    (s.products = [] → loadFeaturedProduct s random = s) ∧
    (s.products ≠ [] →
      ∃ p ∈ s.products, (loadFeaturedProduct s random).featuredProduct = some p) := by
  constructor
  · intro h
    rw [loadFeaturedProduct, if_neg (by simp [h])]
  · intro h
    have hlen : 0 < s.products.length := List.length_pos.mpr h
    have hidx : (Rat.floor (random * (s.products.length : ℚ))).toNat < s.products.length := by
      have hflo : Rat.floor (random * (s.products.length : ℚ)) < (s.products.length : ℤ) := by
        show ⌊random * (s.products.length : ℚ)⌋ < (s.products.length : ℤ)
        rw [Int.floor_lt]
        have hm : random * (s.products.length : ℚ) < 1 * (s.products.length : ℚ) :=
          mul_lt_mul_of_pos_right h1 (by exact_mod_cast hlen)
        simpa using hm
      omega
    rw [loadFeaturedProduct, if_pos hlen]
    dsimp only
    rw [List.getElem?_eq_getElem hidx]
    exact ⟨_, List.getElem_mem hidx, rfl⟩

/-- Claim C8: for every rating in the spec's 0 to 5 range, the star renderer
emits floor(rating) full markers, one half marker exactly when the fractional
part is at least one half, empty markers for the remainder, and always 5 markers
in total. -/
theorem generateStars_spec (rating : ℚ) (h0 : 0 ≤ rating) (h5 : rating ≤ 5) :
    (generateStars rating).count StarMark.full = (Rat.floor rating).toNat ∧
    ((generateStars rating).count StarMark.half =
      if 1 / 2 ≤ rating - (Rat.floor rating : ℚ) then 1 else 0) ∧
    ((generateStars rating).count StarMark.empty =
      5 - (generateStars rating).count StarMark.full -
        (generateStars rating).count StarMark.half) ∧
    (generateStars rating).length = 5 := by
  have hjs : jsMod1 rating = rating - (Rat.floor rating : ℚ) := by
    rw [jsMod1, jsTrunc, if_pos h0]
  have hfl : (Rat.floor rating : ℚ) ≤ rating := Int.floor_le rating
  have hfl0 : 0 ≤ Rat.floor rating := Int.floor_nonneg.mpr h0
  have hfl5 : Rat.floor rating ≤ 5 := by
    have hc : (Rat.floor rating : ℚ) ≤ 5 := le_trans hfl h5
    exact_mod_cast hc
  by_cases hh : 1 / 2 ≤ rating - (Rat.floor rating : ℚ)
  · have hfl4 : Rat.floor rating ≤ 4 := by
      by_contra hcon
      have heq5 : Rat.floor rating = 5 := by omega
      have hr5 : rating = 5 := by
        refine le_antisymm h5 ?_
        have := hfl
        rw [heq5] at this
        exact_mod_cast this
      rw [heq5, hr5] at hh
      norm_num at hh
    simp only [generateStars, hjs, hh, decide_eq_true_eq, if_pos, if_true,
      List.count_append, List.length_append, List.count_replicate_self,
      List.count_replicate, List.length_replicate, List.count_singleton,
      List.length_singleton, List.count_nil]
    refine ⟨by simp, by simp, by simp; omega, by simp; omega⟩
  · simp only [generateStars, hjs, hh, decide_eq_true_eq, if_false,
      List.count_append, List.length_append, List.count_replicate_self,
      List.count_replicate, List.length_replicate, List.count_singleton,
      List.length_singleton, List.count_nil]
    refine ⟨by simp, by simp, by simp; omega, by simp; omega⟩

/-- Witness for claim C2 at a concrete state: adding product 1 twice to an empty
cart of a two-product catalog yields one entry of quantity 2. -/
theorem addToCart_spec_witness :
    addToCart testCatalogState 1 =
      { testCatalogState with cart := testCatalogState.cart ++ [{ pA with quantity := 1 }] } ∧
    addToCart (addToCart testCatalogState 1) 1 =
      { testCatalogState with cart := testCatalogState.cart ++ [{ pA with quantity := 2 }] } :=
  ((addToCart_spec testCatalogState 1).2 pA rfl).2 (by simp [testCatalogState])

/-- Witness for claim C3 at a concrete state: quantity 0 removes the only entry,
and quantity 7 sets it exactly. -/
theorem updateCartItemQuantity_spec_witness :
    (updateCartItemQuantity singleItemState 1 0 = removeFromCart singleItemState 1 ∧
      ∀ it ∈ (updateCartItemQuantity singleItemState 1 0).cart, it.id ≠ 1) ∧
    updateCartItemQuantity singleItemState 1 7 =
      { singleItemState with cart := [] ++ { itemA2 with quantity := 7 } :: [] } :=
  ⟨(updateCartItemQuantity_spec singleItemState 1 0).1 (by decide),
   (updateCartItemQuantity_spec singleItemState 1 7).2 (by decide)
     [] itemA2 [] rfl rfl (by simp) (by simp)⟩

/-- Witness for claim C4 at a concrete state satisfying the invariant. -/
theorem cart_ops_preserve_invariant_witness :
    CartInv (addToCart singleItemState 2).cart ∧
    CartInv (removeFromCart singleItemState 2).cart ∧
    CartInv (updateCartItemQuantity singleItemState 2 3).cart ∧
    CartInv (clearCart singleItemState).cart :=
  cart_ops_preserve_invariant singleItemState 2 3 ⟨by decide, by decide⟩

/-- Witness for claim C6: checkout is a no-op on an empty cart and empties the
example cart while raising the confirmation message. -/
theorem checkout_spec_witness :
    checkout testCatalogState = (testCatalogState, none) ∧
    (checkout exampleCartState).2 =
      some (checkoutMessage (cartTotal exampleCartState) (cartCount exampleCartState)) ∧
    (checkout exampleCartState).1 = { exampleCartState with cart := [] } :=
  ⟨(checkout_spec testCatalogState).1 rfl,
   ((checkout_spec exampleCartState).2 (by decide)).1,
   (((checkout_spec exampleCartState).2 (by decide)).2.2).2⟩

/-- Witness for claim C8 at rating 3.5 (within the 0 to 5 range). -/
theorem generateStars_spec_witness :
    (0 ≤ (7 : ℚ) / 2 ∧ (7 : ℚ) / 2 ≤ 5) ∧
    ((generateStars ((7 : ℚ) / 2)).count StarMark.full = (Rat.floor ((7 : ℚ) / 2)).toNat ∧
     ((generateStars ((7 : ℚ) / 2)).count StarMark.half =
       if 1 / 2 ≤ (7 : ℚ) / 2 - (Rat.floor ((7 : ℚ) / 2) : ℚ) then 1 else 0) ∧
     ((generateStars ((7 : ℚ) / 2)).count StarMark.empty =
       5 - (generateStars ((7 : ℚ) / 2)).count StarMark.full -
         (generateStars ((7 : ℚ) / 2)).count StarMark.half) ∧
     (generateStars ((7 : ℚ) / 2)).length = 5) :=
  ⟨⟨by norm_num, by norm_num⟩,
   generateStars_spec ((7 : ℚ) / 2) (by norm_num) (by norm_num)⟩

/-- Witness for claim C9: with random draw 0 over a two-product catalog, the
featured product is a member of the catalog. -/
theorem loadFeaturedProduct_spec_witness :
    testCatalogState.products ≠ [] ∧
    ∃ p ∈ testCatalogState.products,
      (loadFeaturedProduct testCatalogState 0).featuredProduct = some p :=
  ⟨by simp [testCatalogState],
   (loadFeaturedProduct_spec testCatalogState 0 (by norm_num) (by norm_num)).2
     (by simp [testCatalogState])⟩

/-- Witness for claim C10: updating id 2, absent from the single-entry cart,
with quantity 3 changes nothing. -/
theorem updateCartItemQuantity_absent_noop_witness :
    updateCartItemQuantity singleItemState 2 3 = singleItemState :=
  updateCartItemQuantity_absent_noop singleItemState 2 3 (by decide) (by decide)
